import Mathlib

/-!
Verification development for the AppFlowy `flowy-folder2` folder manager
(`frontend/rust-lib/flowy-folder2/src/manager.rs`).

The manager orchestrates a single shared slot holding at most one loaded
`Folder` tree snapshot.  The `Folder` tree itself (crate `collab_folder`),
the protobuf entities, `create_view` and the error type live outside the
embedded source file; they are modelled from the specification, each such
definition carries a doc comment starting with `Modelled from the spec:`.
Everything in the `Folder2Manager` namespace and the free functions
`get_workspace_view_pbs`, `notify_parent_view_did_change` and
`process_trash_change` are translated directly from `manager.rs`.

Effects are made explicit: each operation takes the slot (`Option Folder`)
and returns the updated slot, the list of notifications that were sent and,
where the source awaits external content handlers, the trace of handler
invocations (as `Event`s).  Handlers are oracles supplied as data.
-/

/-- Modelled from the spec: the error taxonomy of `flowy-error` as used by
`manager.rs` (`FlowyError::internal`, `FlowyError::record_not_found`,
`ErrorCode::InvalidData`). -/
inductive ErrorCode where
  | internal
  | recordNotFound
  | invalidData
  deriving DecidableEq

/-- Modelled from the spec: a `FlowyError` is an error code plus a context
message (`FlowyError::context` replaces the message, keeps the code). -/
structure FlowyError where
  code : ErrorCode
  msg : String
  deriving DecidableEq

/-- Modelled from the spec: `FlowyError::internal()`. -/
def FlowyError.internal : FlowyError := ⟨ErrorCode.internal, ""⟩

/-- Modelled from the spec: `FlowyError::record_not_found()`. -/
def FlowyError.record_not_found : FlowyError := ⟨ErrorCode.recordNotFound, ""⟩

/-- Modelled from the spec: `FlowyError::context`. -/
def FlowyError.context (e : FlowyError) (s : String) : FlowyError := ⟨e.code, s⟩

/-- Modelled from the spec: the view layout kinds of `collab_folder`. -/
inductive ViewLayout where
  | document
  | grid
  | board
  | calendar
  deriving DecidableEq

/-- Modelled from the spec: a `collab_folder` `View` record: id, name,
description, layout kind, parent view id and the ordered child id list. -/
structure View where
  id : String
  parent_view_id : String
  name : String
  desc : String
  layout : ViewLayout
  children : List String
  deriving DecidableEq

/-- Modelled from the spec: a trash record is a view id plus the deletion
timestamp (`TrashRecord` and, on read, `TrashInfo`). -/
structure TrashRecord where
  id : String
  created_at : Int
  deriving DecidableEq

/-- Modelled from the spec: a workspace record (id and name; its child views
are the views whose parent id is the workspace id). -/
structure Workspace where
  id : String
  name : String
  deriving DecidableEq

/-- Modelled from the spec: the loaded tree snapshot (`collab_folder`
`Folder`): workspaces, views, trash records, the current-view pointer and
the current-workspace pointer. -/
structure Folder where
  workspaces : List Workspace
  views : List View
  trash : List TrashRecord
  current_view : Option String
  current_workspace : Option String
  deriving DecidableEq

/-- Modelled from the spec: `ViewPB`, the notification payload produced by
`view_pb_with_child_views(view, child_views)`: the view together with the
ids of the annotated direct children it was given. -/
structure ViewPB where
  id : String
  parent_view_id : String
  name : String
  child_views : List String
  deriving DecidableEq

/-- Modelled from the spec: `view_pb_with_child_views` packs a view and its
annotated direct children into a `ViewPB` (one level only). -/
def view_pb_with_child_views (v : View) (child_views : List View) : ViewPB :=
  ⟨v.id, v.parent_view_id, v.name, child_views.map View.id⟩

/-- Modelled from the spec: the notification sink.  Only the notification
kinds dispatched by the embedded code are modelled: the trash-list
notification (topic "trash", payload the trash list), the child-view
notification (topic = parent view id) and the workspace-views notification
(topic = workspace id). -/
inductive Notification where
  | did_update_trash (items : List TrashRecord)
  | did_update_child_views (topic : String) (payload : ViewPB)
  | did_update_workspace_views (topic : String) (payload : List ViewPB)
  deriving DecidableEq

/-- Trace events recording external content-handler invocations and the
moment a view record is inserted into the tree. -/
inductive Event where
  | evCreateBuiltIn
  | evCreateWithData
  | evImportBytes
  | evImportPath
  | evDuplicate
  | evInsert (id : String)
  deriving DecidableEq

/-- True on the tree-insertion trace event. -/
def Event.isInsert : Event → Bool
  | .evInsert _ => true
  | _ => false

/-- Modelled from the spec: `CreateViewParams` (fields used by
`create_view_with_params`). -/
structure CreateViewParams where
  parent_view_id : String
  name : String
  desc : String
  layout : ViewLayout
  initial_data : List Nat
  view_id : String
  meta : List (String × String)
  set_as_current : Bool
  deriving DecidableEq

/-- Modelled from the spec: `ImportParams` (share.rs): raw data and file
path are each optional; exactly the fields read by `import`. -/
structure ImportParams where
  parent_view_id : String
  name : String
  data : Option (List Nat)
  file_path : Option String
  view_layout : ViewLayout
  deriving DecidableEq

/-- Modelled from the spec: a per-layout content handler
(`FolderOperationHandler`).  Each method is an oracle giving the outcome of
the awaited call. -/
structure FolderOperationHandler where
  create_built_in_view : Int → String → String → ViewLayout → Except FlowyError Unit
  create_view_with_view_data :
    Int → String → String → List Nat → ViewLayout → List (String × String) →
      Except FlowyError Unit
  duplicate_view : String → Except FlowyError (List Nat)
  from_bytes : String → String → List Nat → Except FlowyError Unit
  from_file_path : String → String → String → Except FlowyError Unit

/-- The manager environment: the registered handlers (by layout kind) and
the user-id lookup outcome (`self.user.user_id()`). -/
structure ManagerEnv where
  operation_handlers : ViewLayout → Option FolderOperationHandler
  user_id : Except FlowyError Int

/-- Outcome of a manager operation: the slot after the call, the
notifications sent, the returned value and the handler/insert trace. -/
structure Outcome (α : Type) where
  slot : Option Folder
  notifs : List Notification
  result : Except FlowyError α
  events : List Event

/-- Insert an element at position `n`, clamped to the end of the list. -/
def List.insertAt {α : Type} : Nat → α → List α → List α
  | _, x, [] => [x]
  | 0, x, l => x :: l
  | n + 1, x, a :: l => a :: List.insertAt n x l

/-- Move the element at index `i` to index `j` (no-op when `i` is out of
range). -/
def List.moveIdx {α : Type} (l : List α) (i j : Nat) : List α :=
  match l[i]? with
  | none => l
  | some x => List.insertAt j x (l.eraseIdx i)

/-- Modelled from the spec: `folder.trash.get_all_trash()`. -/
def Folder.get_all_trash (f : Folder) : List TrashRecord := f.trash

/-- Modelled from the spec: `folder.trash.add_trash(records)` appends the
given trash records. -/
def Folder.add_trash (f : Folder) (records : List TrashRecord) : Folder :=
  { f with trash := f.trash ++ records }

/-- Modelled from the spec: `folder.trash.delete_trash(ids)` removes the
trash records with the given ids (the views themselves are untouched). -/
def Folder.delete_trash (f : Folder) (ids : List String) : Folder :=
  { f with trash := f.trash.filter (fun r => !decide (r.id ∈ ids)) }

/-- Modelled from the spec: `folder.trash.clear()` empties the trash record
set (the views themselves are untouched). -/
def Folder.clear_trash (f : Folder) : Folder := { f with trash := [] }

/-- Modelled from the spec: `folder.views.get_view(id)` looks up a view by
id. -/
def Folder.get_view (f : Folder) (view_id : String) : Option View :=
  f.views.find? (fun v => v.id == view_id)

/-- Modelled from the spec: `folder.views.get_views(&ids)` fetches the views
for each id in order, skipping unknown ids. -/
def Folder.get_views (f : Folder) (ids : List String) : List View :=
  ids.filterMap f.get_view

/-- Modelled from the spec: `folder.views.get_views_belong_to(parent)` lists
the views whose parent id is `parent`, in tree order. -/
def Folder.get_views_belong_to (f : Folder) (parent : String) : List View :=
  f.views.filter (fun v => v.parent_view_id == parent)

/-- Modelled from the spec: `folder.views.delete_views(ids)` physically
removes the view records with the given ids. -/
def Folder.delete_views (f : Folder) (ids : List String) : Folder :=
  { f with views := f.views.filter (fun v => !decide (v.id ∈ ids)) }

/-- Modelled from the spec: `folder.insert_view(view)` adds a view record to
the tree. -/
def Folder.insert_view (f : Folder) (v : View) : Folder :=
  { f with views := f.views ++ [v] }

/-- Modelled from the spec: `folder.get_current_view()`. -/
def Folder.get_current_view (f : Folder) : Option String := f.current_view

/-- Modelled from the spec: `folder.set_current_view(id)`; setting the empty
id clears the selection. -/
def Folder.set_current_view (f : Folder) (view_id : String) : Folder :=
  { f with current_view := if view_id = "" then none else some view_id }

/-- Modelled from the spec: `folder.get_current_workspace_id()`. -/
def Folder.get_current_workspace_id (f : Folder) : Option String :=
  f.current_workspace

/-- Modelled from the spec: `folder.set_current_workspace(id)`. -/
def Folder.set_current_workspace (f : Folder) (workspace_id : String) : Folder :=
  { f with current_workspace := some workspace_id }

/-- Modelled from the spec: `folder.workspaces.get_workspace(id)`. -/
def Folder.get_workspace (f : Folder) (workspace_id : String) : Option Workspace :=
  f.workspaces.find? (fun w => w.id == workspace_id)

/-- Modelled from the spec: `folder.get_workspace_views(workspace_id)` lists
the top-level views of the workspace (the views whose parent id is the
workspace id). -/
def Folder.get_workspace_views (f : Folder) (workspace_id : String) : List View :=
  f.get_views_belong_to workspace_id

/-- Modelled from the spec: `folder.move_view(id, from, to)` reorders the
view among its siblings, returning the moved view; it is a silent no-op
returning `none` when the id is unknown. -/
def Folder.move_view (f : Folder) (view_id : String) (fromIdx toIdx : Nat) :
    Folder × Option View :=
  match f.get_view view_id with
  | none => (f, none)
  | some v =>
    let sibs := f.get_views_belong_to v.parent_view_id
    let others := f.views.filter (fun w => !(w.parent_view_id == v.parent_view_id))
    ({ f with views := others ++ sibs.moveIdx fromIdx toIdx }, some v)

/-- Modelled from the spec: `view_operation::create_view(params, layout)`
builds the fresh view record from the creation parameters (empty child
list). -/
def create_view (params : CreateViewParams) (layout : ViewLayout) : View :=
  { id := params.view_id
    parent_view_id := params.parent_view_id
    name := params.name
    desc := params.desc
    layout := layout
    children := [] }

/-- Source `manager.rs` `folder_not_init_error`: an internal error with the
"Folder not initialized" context. -/
def folder_not_init_error : FlowyError :=
  FlowyError.internal.context "Folder not initialized"

/-- Source `manager.rs` `Folder2Manager::with_folder`: run `f` on the loaded
snapshot, or return the default when the slot is empty. -/
def Folder2Manager.with_folder {α : Type} (slot : Option Folder)
    (default_value : α) (f : Folder → α) : α :=
  match slot with
  | none => default_value
  | some folder => f folder

/-- Source `manager.rs` `get_workspace_view_pbs`: the workspace-level view
listing.  Top-level views are filtered against the trash ids; the child
views attached to each remaining top-level view are taken unfiltered from
`get_views_belong_to`. -/
def get_workspace_view_pbs (workspace_id : String) (folder : Folder) : List ViewPB :=
  let trash_ids := (folder.get_all_trash).map TrashRecord.id
  let views :=
    (folder.get_workspace_views workspace_id).filter
      (fun v => !decide (v.id ∈ trash_ids))
  views.map (fun view =>
    let child_views := folder.get_views_belong_to view.id
    view_pb_with_child_views view child_views)

/-- Source `manager.rs` `notify_did_update_workspace`: dispatch the full
workspace view listing on the workspace topic. -/
def notify_did_update_workspace (workspace_id : String) (folder : Folder) :
    Notification :=
  Notification.did_update_workspace_views workspace_id
    (get_workspace_view_pbs workspace_id folder)

/-- Loop body of `notify_parent_view_did_change`: walk the parent id list;
a parent equal to the workspace id yields the workspace notification, a
parent with a view record yields a child-view notification with the
trash-filtered direct children, and a missing parent aborts the whole walk
(the `?` early return in the source). -/
def notify_parent_loop (folder : Folder) (workspace_id : String)
    (trash_ids : List String) : List String → List Notification
  | [] => []
  | parent_view_id :: rest =>
    if parent_view_id = workspace_id then
      notify_did_update_workspace workspace_id folder ::
        notify_parent_loop folder workspace_id trash_ids rest
    else
      match folder.get_view parent_view_id with
      | none => []
      | some parent_view =>
        let child_views :=
          (folder.get_views_belong_to parent_view_id).filter
            (fun v => !decide (v.id ∈ trash_ids))
        Notification.did_update_child_views parent_view_id
            (view_pb_with_child_views parent_view child_views) ::
          notify_parent_loop folder workspace_id trash_ids rest

/-- Source `manager.rs` `notify_parent_view_did_change`: nothing is sent
when the slot is empty or no current workspace id is set; otherwise the
parent ids are processed in order by `notify_parent_loop`. -/
def notify_parent_view_did_change (slot : Option Folder)
    (parent_view_ids : List String) : List Notification :=
  match slot with
  | none => []
  | some folder =>
    match folder.get_current_workspace_id with
    | none => []
    | some workspace_id =>
      let trash_ids := (folder.get_all_trash).map TrashRecord.id
      notify_parent_loop folder workspace_id trash_ids parent_view_ids

/-- Source `manager.rs` `Folder2Manager::get_view`: not-initialized error on
an empty slot; NotFound when the id is trashed or absent; otherwise the view
with trash-filtered annotated children. -/
def Folder2Manager.get_view (slot : Option Folder) (view_id : String) :
    Except FlowyError ViewPB :=
  match slot with
  | none => .error folder_not_init_error
  | some folder =>
    let trash_ids := (folder.get_all_trash).map TrashRecord.id
    if decide (view_id ∈ trash_ids) then .error FlowyError.record_not_found
    else
      match folder.get_view view_id with
      | none => .error FlowyError.record_not_found
      | some view =>
        let view2 :=
          { view with children := view.children.filter (fun b => !decide (b ∈ trash_ids)) }
        let child_views :=
          (folder.get_views_belong_to view.id).filter
            (fun v => !decide (v.id ∈ trash_ids))
        .ok (view_pb_with_child_views view2 child_views)

/-- Source `manager.rs` `Folder2Manager::get_workspace_views`. -/
def Folder2Manager.get_workspace_views (slot : Option Folder)
    (workspace_id : String) : List ViewPB :=
  Folder2Manager.with_folder slot [] (get_workspace_view_pbs workspace_id)

/-- Source `manager.rs` `Folder2Manager::get_current_workspace_views`:
empty when the slot is empty or no current workspace id is set. -/
def Folder2Manager.get_current_workspace_views (slot : Option Folder) :
    List ViewPB :=
  match slot.map Folder.get_current_workspace_id with
  | some (some workspace_id) => Folder2Manager.get_workspace_views slot workspace_id
  | _ => []

/-- Source `manager.rs` `Folder2Manager::open_workspace`: internal error on
an empty slot, NotFound on an unknown workspace id, otherwise only the
current-workspace pointer changes. -/
def Folder2Manager.open_workspace (slot : Option Folder) (workspace_id : String) :
    Option Folder × Except FlowyError Workspace :=
  match slot with
  | none => (none, .error FlowyError.internal)
  | some folder =>
    match folder.get_workspace workspace_id with
    | none =>
      (some folder,
        .error (FlowyError.record_not_found.context "Cannot open not existing workspace"))
    | some workspace =>
      (some (folder.set_current_workspace workspace_id), .ok workspace)

/-- Source `manager.rs` `Folder2Manager::move_view_to_trash`: inside
`with_folder` (no-op on an empty slot) a trash record for the id is appended
unconditionally, then the current-view pointer is cleared when it equals the
id.  Always returns Ok. -/
def Folder2Manager.move_view_to_trash (slot : Option Folder) (view_id : String)
    (now : Int) : Option Folder × Except FlowyError Unit :=
  match slot with
  | none => (none, .ok ())
  | some folder =>
    let f1 := folder.add_trash [⟨view_id, now⟩]
    let f2 :=
      match f1.get_current_view with
      | some v => if v = view_id then f1.set_current_view "" else f1
      | none => f1
    (some f2, .ok ())

/-- Source `manager.rs` `Folder2Manager::move_view`: `Folder::move_view`
inside `with_folder`; a missing view only logs (no notification, Ok), a
moved view triggers the parent-scoped notification path. -/
def Folder2Manager.move_view (slot : Option Folder) (view_id : String)
    (fromIdx toIdx : Nat) : Outcome Unit :=
  match slot with
  | none => ⟨none, [], .ok (), []⟩
  | some folder =>
    match folder.move_view view_id fromIdx toIdx with
    | (f1, none) => ⟨some f1, [], .ok (), []⟩
    | (f1, some view) =>
      ⟨some f1, notify_parent_view_did_change (some f1) [view.parent_view_id],
        .ok (), []⟩

/-- Source `manager.rs` `Folder2Manager::restore_all_trash`: clear the trash
inside `with_folder`, then unconditionally send the empty trash-list
notification. -/
def Folder2Manager.restore_all_trash (slot : Option Folder) :
    Option Folder × List Notification :=
  (slot.map Folder.clear_trash, [Notification.did_update_trash []])

/-- Source `manager.rs` `Folder2Manager::restore_trash`: delete the single
trash record. -/
def Folder2Manager.restore_trash (slot : Option Folder) (trash_id : String) :
    Option Folder :=
  slot.map (fun folder => folder.delete_trash [trash_id])

/-- Source `manager.rs` `Folder2Manager::delete_trash`: delete the trash
record and the view itself. -/
def Folder2Manager.delete_trash (slot : Option Folder) (trash_id : String) :
    Option Folder :=
  slot.map (fun folder => (folder.delete_trash [trash_id]).delete_views [trash_id])

/-- Source `manager.rs` `Folder2Manager::delete_all_trash`: read the trash,
clear it, delete the trashed views, then unconditionally send the empty
trash-list notification. -/
def Folder2Manager.delete_all_trash (slot : Option Folder) :
    Option Folder × List Notification :=
  (slot.map (fun folder =>
      let trash := folder.get_all_trash
      (folder.clear_trash).delete_views (trash.map TrashRecord.id)),
    [Notification.did_update_trash []])

/-- Source `manager.rs` `Folder2Manager::get_handler`: look up the content
handler for a layout kind; internal error when none is registered. -/
def Folder2Manager.get_handler (env : ManagerEnv) (view_layout : ViewLayout) :
    Except FlowyError FolderOperationHandler :=
  match env.operation_handlers view_layout with
  | none =>
    .error (FlowyError.internal.context
      "Get data processor failed. Unknown layout type")
  | some handler => .ok handler

/-- Source `manager.rs` `Folder2Manager::create_view_with_params`: resolve
the handler and user id, await the content call (built-in template when
`initial_data` is empty, else the caller-supplied bytes), and only on its
success build the view, insert it into the tree (a no-op on an empty slot)
and run the parent-scoped notification path. -/
def Folder2Manager.create_view_with_params (env : ManagerEnv)
    (slot : Option Folder) (params : CreateViewParams) : Outcome View :=
  match Folder2Manager.get_handler env params.layout with
  | .error e => ⟨slot, [], .error e, []⟩
  | .ok handler =>
    match env.user_id with
    | .error e => ⟨slot, [], .error e, []⟩
    | .ok user_id =>
      let content :=
        if params.initial_data.isEmpty then
          (handler.create_built_in_view user_id params.view_id params.name
              params.layout,
            Event.evCreateBuiltIn)
        else
          (handler.create_view_with_view_data user_id params.view_id params.name
              params.initial_data params.layout params.meta,
            Event.evCreateWithData)
      match content.1 with
      | .error e => ⟨slot, [], .error e, [content.2]⟩
      | .ok () =>
        let view := create_view params params.layout
        let slot2 := slot.map (fun folder => folder.insert_view view)
        ⟨slot2, notify_parent_view_did_change slot2 [view.parent_view_id],
          .ok view, [content.2, Event.evInsert view.id]⟩

/-- Source `manager.rs` `Folder2Manager::import`: fail with InvalidData when
neither data nor file path is supplied; otherwise resolve the handler, run
the bytes ingestion when data is present and then the file ingestion when a
path is present (both run when both are present), and finally create and
insert the view as `create_view_with_params` does.  `gen_view_id` is passed
in as `new_view_id`. -/
def Folder2Manager.import_view (env : ManagerEnv) (slot : Option Folder)
    (import_data : ImportParams) (new_view_id : String) : Outcome View :=
  if import_data.data = none ∧ import_data.file_path = none then
    ⟨slot, [], .error ⟨ErrorCode.invalidData, "data or file_path is required"⟩, []⟩
  else
    match Folder2Manager.get_handler env import_data.view_layout with
    | .error e => ⟨slot, [], .error e, []⟩
    | .ok handler =>
      let step1 :=
        match import_data.data with
        | some data =>
          (handler.from_bytes new_view_id import_data.name data, [Event.evImportBytes])
        | none => (.ok (), [])
      match step1.1 with
      | .error e => ⟨slot, [], .error e, step1.2⟩
      | .ok () =>
        let step2 :=
          match import_data.file_path with
          | some file_path =>
            (handler.from_file_path new_view_id import_data.name file_path,
              [Event.evImportPath])
          | none => (.ok (), [])
        match step2.1 with
        | .error e => ⟨slot, [], .error e, step1.2 ++ step2.2⟩
        | .ok () =>
          let params : CreateViewParams :=
            { parent_view_id := import_data.parent_view_id
              name := import_data.name
              desc := ""
              layout := import_data.view_layout
              initial_data := []
              view_id := new_view_id
              meta := []
              set_as_current := false }
          let view := create_view params import_data.view_layout
          let slot2 := slot.map (fun folder => folder.insert_view view)
          ⟨slot2, notify_parent_view_did_change slot2 [view.parent_view_id],
            .ok view, step1.2 ++ step2.2 ++ [Event.evInsert view.id]⟩

/-- Source `manager.rs` `Folder2Manager::duplicate_view`: NotFound when the
source view is absent (or the slot empty); otherwise the handler duplicates
the content and the copy is created through `create_view_with_params` with a
" (copy)" name suffix and a fresh id. -/
def Folder2Manager.duplicate_view (env : ManagerEnv) (slot : Option Folder)
    (view_id : String) (new_view_id : String) : Outcome Unit :=
  match Folder2Manager.with_folder slot none (fun folder => folder.get_view view_id) with
  | none =>
    ⟨slot, [], .error (FlowyError.record_not_found.context "Cannot duplicate the view"), []⟩
  | some view =>
    match Folder2Manager.get_handler env view.layout with
    | .error e => ⟨slot, [], .error e, []⟩
    | .ok handler =>
      match handler.duplicate_view view.id with
      | .error e => ⟨slot, [], .error e, [Event.evDuplicate]⟩
      | .ok view_data =>
        let duplicate_params : CreateViewParams :=
          { parent_view_id := view.parent_view_id
            name := view.name ++ " (copy)"
            desc := view.desc
            layout := view.layout
            initial_data := view_data
            view_id := new_view_id
            meta := []
            set_as_current := true }
        let out := Folder2Manager.create_view_with_params env slot duplicate_params
        ⟨out.slot, out.notifs, out.result.map (fun _ => ()),
          Event.evDuplicate :: out.events⟩

/-- Source `manager.rs` `listen_on_trash_change`, handling of one received
trash-change event carrying the affected ids: when a snapshot is loaded the
distinct parent ids of the affected views are collected (a `HashSet` in the
source, a `dedup` here), the full trash list is sent on the trash topic, and
the deduplicated parents go through the parent notification path. -/
def process_trash_change (slot : Option Folder) (ids : List String) :
    List Notification :=
  match slot with
  | none => notify_parent_view_did_change none []
  | some folder =>
    let unique_ids := ((folder.get_views ids).map View.parent_view_id).dedup
    Notification.did_update_trash folder.get_all_trash ::
      notify_parent_view_did_change (some folder) unique_ids

/-- A content handler whose calls all succeed (duplication yields one byte). -/
def sampleHandlerOk : FolderOperationHandler :=
  { create_built_in_view := fun _ _ _ _ => .ok ()
    create_view_with_view_data := fun _ _ _ _ _ _ => .ok ()
    duplicate_view := fun _ => .ok [1]
    from_bytes := fun _ _ _ => .ok ()
    from_file_path := fun _ _ _ => .ok () }

/-- A content handler whose content-creation calls all fail. -/
def sampleHandlerFail : FolderOperationHandler :=
  { create_built_in_view := fun _ _ _ _ => .error ⟨ErrorCode.internal, "handler failed"⟩
    create_view_with_view_data := fun _ _ _ _ _ _ => .error ⟨ErrorCode.internal, "handler failed"⟩
    duplicate_view := fun _ => .error ⟨ErrorCode.internal, "handler failed"⟩
    from_bytes := fun _ _ _ => .error ⟨ErrorCode.internal, "handler failed"⟩
    from_file_path := fun _ _ _ => .error ⟨ErrorCode.internal, "handler failed"⟩ }

/-- Environment with the succeeding handler registered for every layout. -/
def sampleEnvOk : ManagerEnv :=
  { operation_handlers := fun _ => some sampleHandlerOk, user_id := .ok 1 }

/-- Environment with the failing handler registered for every layout. -/
def sampleEnvFail : ManagerEnv :=
  { operation_handlers := fun _ => some sampleHandlerFail, user_id := .ok 1 }

/-- Snapshot with workspace `w`, top-level view `p`, its child `v`, and `v`
in the trash. -/
def sampleFolder1 : Folder :=
  { workspaces := [⟨"w", "W"⟩]
    views :=
      [ ⟨"p", "w", "P", "", ViewLayout.document, ["v"]⟩,
        ⟨"v", "p", "V", "", ViewLayout.document, []⟩ ]
    trash := [⟨"v", 0⟩]
    current_view := none
    current_workspace := some "w" }

/-- Snapshot holding one view but no current workspace id. -/
def sampleFolderNoWs : Folder :=
  { workspaces := []
    views := [⟨"v", "p", "V", "", ViewLayout.document, []⟩]
    trash := []
    current_view := none
    current_workspace := none }

/-- Creation parameters for a fresh document view `n` under parent `p`
with built-in content. -/
def sampleParams : CreateViewParams :=
  { parent_view_id := "p"
    name := "N"
    desc := ""
    layout := ViewLayout.document
    initial_data := []
    view_id := "n"
    meta := []
    set_as_current := false }

/-- Import parameters carrying both a raw-data source and a file-path
source. -/
def sampleImportBoth : ImportParams :=
  { parent_view_id := "p"
    name := "N"
    data := some [1]
    file_path := some "a.md"
    view_layout := ViewLayout.document }

/-- Import parameters carrying neither source. -/
def sampleImportNeither : ImportParams :=
  { parent_view_id := "p"
    name := "N"
    data := none
    file_path := none
    view_layout := ViewLayout.document }

/-- True on a trash-list notification. -/
def Notification.isTrash : Notification → Bool
  | .did_update_trash _ => true
  | _ => false

/-- True on a child-view notification whose topic is `p`. -/
def Notification.isChildViewFor (p : String) : Notification → Bool
  | .did_update_child_views topic _ => topic == p
  | _ => false

deriving instance DecidableEq for Except

/-- Inserting at any position is a permutation of consing. -/
theorem List.insertAt_perm {α : Type} :
    ∀ (n : Nat) (x : α) (l : List α), (List.insertAt n x l).Perm (x :: l) := by
  intro n x l
  induction l generalizing n with
  | nil => cases n <;> simp [List.insertAt]
  | cons a t ih =>
    cases n with
    | zero => simp [List.insertAt]
    | succ m =>
      simp only [List.insertAt]
      exact ((ih m).cons a).trans (List.Perm.swap x a t)

/-- A list is a permutation of its `i`-th element consed on the erasure. -/
theorem List.perm_cons_eraseIdx {α : Type} :
    ∀ (l : List α) (i : Nat) (x : α), l[i]? = some x → l.Perm (x :: l.eraseIdx i) := by
  intro l
  induction l with
  | nil => intro i x h; simp at h
  | cons a t ih =>
    intro i x h
    cases i with
    | zero =>
      simp at h
      subst h
      simp [List.eraseIdx]
    | succ j =>
      simp at h
      have := (ih j x h).cons a
      exact this.trans (List.Perm.swap x a (t.eraseIdx j))

/-- Moving an element within a list is a permutation. -/
theorem List.moveIdx_perm {α : Type} (l : List α) (i j : Nat) :
    (l.moveIdx i j).Perm l := by
  unfold List.moveIdx
  cases h : l[i]? with
  | none => exact List.Perm.refl l
  | some x =>
    simp only
    exact (List.insertAt_perm j x (l.eraseIdx i)).trans
      (List.perm_cons_eraseIdx l i x h).symm

/-- Splitting a list by a predicate and recombining is a permutation. -/
theorem List.perm_filter_append_filter_not {α : Type} (p : α → Bool) :
    ∀ l : List α, ((l.filter (fun a => !p a)) ++ l.filter p).Perm l := by
  intro l
  induction l with
  | nil => simp
  | cons a t ih =>
    by_cases h : p a = true
    · simp only [List.filter_cons, h, Bool.not_true, if_true, if_false]
      exact List.perm_middle.trans (ih.cons a)
    · have h2 : p a = false := by revert h; cases p a <;> simp
      simp only [List.filter_cons, h2, Bool.not_false, if_true, if_false]
      exact (ih.cons a)

/-- `Folder.move_view` preserves the multiset of view records. -/
theorem Folder.move_view_perm (f : Folder) (view_id : String)
    (fromIdx toIdx : Nat) :
    ((f.move_view view_id fromIdx toIdx).1.views).Perm f.views := by
  unfold Folder.move_view
  cases h : f.get_view view_id with
  | none => simp
  | some v =>
    simp only
    have h1 : ((f.get_views_belong_to v.parent_view_id).moveIdx fromIdx toIdx).Perm
        (f.get_views_belong_to v.parent_view_id) :=
      List.moveIdx_perm _ fromIdx toIdx
    have h2 := List.perm_filter_append_filter_not
      (fun w => w.parent_view_id == v.parent_view_id) f.views
    exact ((h1.append_left _).trans h2)

/-- Claim C5: for every loaded snapshot, `move_view_to_trash(view_id)`
clears the current-view selection exactly when `view_id` equals the
current-view pointer, and leaves the pointer unchanged for any other id. -/
theorem C5_trash_current_view (folder : Folder) (view_id : String) (now : Int) :
    ∃ f2,
      Folder2Manager.move_view_to_trash (some folder) view_id now = (some f2, .ok ()) ∧
        f2.current_view =
          (if folder.current_view = some view_id then none else folder.current_view) := by
  refine ⟨_, rfl, ?_⟩
  cases h : folder.current_view with
  | none =>
    simp [Folder2Manager.move_view_to_trash, Folder.add_trash, Folder.get_current_view, h]
  | some v =>
    by_cases hv : v = view_id <;>
      simp [Folder2Manager.move_view_to_trash, Folder.add_trash, Folder.get_current_view,
        Folder.set_current_view, h, hv]

/-- Claim C10: `move_view_to_trash` performs no existence or duplication
check: for every view id (known or not, already trashed or not) it appends a
fresh trash record, leaves the view records untouched and returns success,
so the trash list can hold ids of nonexistent views and duplicate entries. -/
theorem C10_trash_no_check (folder : Folder) (view_id : String) (now : Int) :
    ∃ f2,
      Folder2Manager.move_view_to_trash (some folder) view_id now = (some f2, .ok ()) ∧
        f2.trash = folder.trash ++ [⟨view_id, now⟩] ∧
        f2.views = folder.views ∧
        (f2.trash.map TrashRecord.id).count view_id =
          (folder.trash.map TrashRecord.id).count view_id + 1 := by
  refine ⟨_, rfl, ?_, ?_, ?_⟩ <;>
    cases h : folder.current_view <;>
      first
      | (rename_i v
         by_cases hv : v = view_id <;>
           simp [Folder2Manager.move_view_to_trash, Folder.add_trash,
             Folder.get_current_view, Folder.set_current_view, h, hv, List.count_append])
      | simp [Folder2Manager.move_view_to_trash, Folder.add_trash,
          Folder.get_current_view, Folder.set_current_view, h, List.count_append]

/-- Claim C6: `restore_all_trash` and `delete_all_trash` are idempotent on
every loaded snapshot — a second call yields the same (empty-trash) end
state — and every call, even on an already empty trash, sends the
empty-trash-list notification. -/
theorem C6_trash_idempotent (folder : Folder) :
    (Folder2Manager.restore_all_trash
          (Folder2Manager.restore_all_trash (some folder)).1).1 =
        (Folder2Manager.restore_all_trash (some folder)).1 ∧
      (Folder2Manager.restore_all_trash (some folder)).2 =
        [Notification.did_update_trash []] ∧
      (Folder2Manager.restore_all_trash
          (Folder2Manager.restore_all_trash (some folder)).1).2 =
        [Notification.did_update_trash []] ∧
      (∃ f1, (Folder2Manager.restore_all_trash (some folder)).1 = some f1 ∧
        f1.trash = []) ∧
      (Folder2Manager.delete_all_trash
          (Folder2Manager.delete_all_trash (some folder)).1).1 =
        (Folder2Manager.delete_all_trash (some folder)).1 ∧
      (Folder2Manager.delete_all_trash (some folder)).2 =
        [Notification.did_update_trash []] ∧
      (Folder2Manager.delete_all_trash
          (Folder2Manager.delete_all_trash (some folder)).1).2 =
        [Notification.did_update_trash []] ∧
      (∃ g1, (Folder2Manager.delete_all_trash (some folder)).1 = some g1 ∧
        g1.trash = []) := by
  refine ⟨?_, rfl, rfl, ⟨_, rfl, rfl⟩, ?_, rfl, rfl, ⟨_, rfl, rfl⟩⟩
  · simp [Folder2Manager.restore_all_trash, Folder.clear_trash]
  · simp [Folder2Manager.delete_all_trash, Folder.clear_trash, Folder.get_all_trash,
      Folder.delete_views]

/-- Claim C1 counterexample: `v` is in the trash of `sampleFolder1`, yet the
workspace-level view listing still shows `v` inside the child list of its
parent `p` — the listing only trash-filters the top-level views, not the
child views it attaches. -/
theorem C1_counterexample :
    "v" ∈ sampleFolder1.get_all_trash.map TrashRecord.id ∧
      ∃ pb ∈ Folder2Manager.get_current_workspace_views (some sampleFolder1),
        "v" ∈ pb.child_views := by
  decide

/-- Claim C1 as amended: for a loaded snapshot and a trashed view id,
`get_view` on that id fails NotFound, the id is excluded from the annotated
children of every successful `get_view`, and it is excluded from the
top-level entries of the workspace-level listing; the child lists attached
by the workspace-level listing are, however, not trash-filtered. -/
theorem C1_trash_visibility (folder : Folder) (view_id : String)
    (h : view_id ∈ folder.get_all_trash.map TrashRecord.id) :
    Folder2Manager.get_view (some folder) view_id = .error FlowyError.record_not_found ∧
      (∀ other pb, Folder2Manager.get_view (some folder) other = .ok pb →
        view_id ∉ pb.child_views) ∧
      (∀ workspace_id, ∀ pb ∈ get_workspace_view_pbs workspace_id folder,
        pb.id ≠ view_id) := by
  refine ⟨?_, ?_, ?_⟩
  · simp [Folder2Manager.get_view, h]
  · intro other pb hpb
    simp only [Folder2Manager.get_view] at hpb
    by_cases hother : other ∈ folder.get_all_trash.map TrashRecord.id
    · simp [hother] at hpb
    · simp only [hother, decide_False, if_false, Bool.false_eq_true, if_neg] at hpb
      cases hv : folder.get_view other with
      | none => simp [hv] at hpb
      | some view =>
        simp only [hv] at hpb
        cases hpb
        simp only [view_pb_with_child_views, List.mem_map, List.mem_filter]
        rintro ⟨v, ⟨_, hvnot⟩, hvid⟩
        rw [hvid] at hvnot
        simp at hvnot
        obtain ⟨r, hr, hrid⟩ := List.mem_map.mp h
        exact hvnot r hr hrid
  · intro workspace_id pb hpb
    simp only [get_workspace_view_pbs, List.mem_map, List.mem_filter] at hpb
    obtain ⟨view, ⟨_, hnot⟩, hpb⟩ := hpb
    cases hpb
    simp only [view_pb_with_child_views]
    intro hid
    rw [hid] at hnot
    simp at hnot
    obtain ⟨r, hr, hrid⟩ := List.mem_map.mp h
    exact hnot r hr hrid

/-- Claim C1 witness: the amended theorem evaluated on `sampleFolder1` with
the trashed id `v`. -/
theorem C1_trash_visibility_witness :
    Folder2Manager.get_view (some sampleFolder1) "v" =
        .error FlowyError.record_not_found ∧
      "v" ∉ (ViewPB.mk "p" "w" "P" []).child_views ∧
      (ViewPB.mk "p" "w" "P" ["v"]).id ≠ "v" := by
  have h := C1_trash_visibility sampleFolder1 "v" (by decide)
  exact ⟨h.1, h.2.1 "p" (ViewPB.mk "p" "w" "P" []) (by decide),
    h.2.2 "w" (ViewPB.mk "p" "w" "P" ["v"]) (by decide)⟩

/-- On an empty slot `create_view_with_params` never mutates the slot and
never notifies, whatever the handler outcomes. -/
theorem create_view_with_params_empty_slot (env : ManagerEnv)
    (params : CreateViewParams) :
    (Folder2Manager.create_view_with_params env none params).slot = none ∧
      (Folder2Manager.create_view_with_params env none params).notifs = [] := by
  unfold Folder2Manager.create_view_with_params
  cases Folder2Manager.get_handler env params.layout with
  | error e => exact ⟨rfl, rfl⟩
  | ok handler =>
    cases env.user_id with
    | error e => exact ⟨rfl, rfl⟩
    | ok uid =>
      by_cases hd : params.initial_data.isEmpty
      · simp only [hd, if_true]
        cases handler.create_built_in_view uid params.view_id params.name params.layout with
        | error e => exact ⟨rfl, rfl⟩
        | ok u => exact ⟨rfl, rfl⟩
      · simp only [hd, if_false]
        cases handler.create_view_with_view_data uid params.view_id params.name
            params.initial_data params.layout params.meta with
        | error e => exact ⟨rfl, rfl⟩
        | ok u => exact ⟨rfl, rfl⟩

/-- On an empty slot `import` never mutates the slot and never notifies,
whatever the handler outcomes. -/
theorem import_view_empty_slot (env : ManagerEnv) (p : ImportParams)
    (new_view_id : String) :
    (Folder2Manager.import_view env none p new_view_id).slot = none ∧
      (Folder2Manager.import_view env none p new_view_id).notifs = [] := by
  unfold Folder2Manager.import_view
  by_cases hboth : p.data = none ∧ p.file_path = none
  · simp only [hboth, if_true]
    exact ⟨rfl, rfl⟩
  · simp only [hboth, if_false]
    cases Folder2Manager.get_handler env p.view_layout with
    | error e => exact ⟨rfl, rfl⟩
    | ok handler =>
      cases hdata : p.data with
      | none =>
        simp only [hdata]
        cases hpath : p.file_path with
        | none => exact ⟨rfl, rfl⟩
        | some fp =>
          simp only
          cases handler.from_file_path new_view_id p.name fp with
          | error e => exact ⟨rfl, rfl⟩
          | ok u => exact ⟨rfl, rfl⟩
      | some d =>
        simp only [hdata]
        cases handler.from_bytes new_view_id p.name d with
        | error e => exact ⟨rfl, rfl⟩
        | ok u =>
          cases hpath : p.file_path with
          | none => exact ⟨rfl, rfl⟩
          | some fp =>
            simp only
            cases handler.from_file_path new_view_id p.name fp with
            | error e => exact ⟨rfl, rfl⟩
            | ok u2 => exact ⟨rfl, rfl⟩

/-- Claim C2 counterexample: with the slot empty and a registered handler,
`create_view_with_params` reports success — it returns Ok with the
constructed view — although the view was not inserted anywhere (the slot is
still empty and a subsequent `get_view` fails), so the claim that no call
reports success for a mutation that was not applied is false. -/
theorem C2_counterexample :
    (Folder2Manager.create_view_with_params sampleEnvOk none sampleParams).result =
        .ok (create_view sampleParams ViewLayout.document) ∧
      (Folder2Manager.create_view_with_params sampleEnvOk none sampleParams).slot =
        none ∧
      Folder2Manager.get_view
          (Folder2Manager.create_view_with_params sampleEnvOk none sampleParams).slot
          sampleParams.view_id =
        .error folder_not_init_error := by
  exact ⟨rfl, rfl, rfl⟩

/-- Claim C2 as amended, restricted to the calls the claim names: while the
slot is empty, `get_view` and `open_workspace` fail with the internal
(not-initialized) error; `move_view_to_trash` performs no mutation and
returns its no-op result Ok; `create_view_with_params` and `import` leave
the slot empty and send no notification — but, contrary to the original
claim, `create_view_with_params` can still report success: whenever it
returns Ok with a view, that view was never inserted (the slot stays empty
and `get_view` on the resulting slot still fails not-initialized). -/
theorem C2_empty_slot (env : ManagerEnv) (params : CreateViewParams)
    (p : ImportParams) (view_id workspace_id new_view_id : String) (now : Int) :
    Folder2Manager.get_view none view_id = .error folder_not_init_error ∧
      Folder2Manager.open_workspace none workspace_id =
        (none, .error FlowyError.internal) ∧
      Folder2Manager.move_view_to_trash none view_id now = (none, .ok ()) ∧
      (Folder2Manager.create_view_with_params env none params).slot = none ∧
      (Folder2Manager.create_view_with_params env none params).notifs = [] ∧
      (Folder2Manager.import_view env none p new_view_id).slot = none ∧
      (Folder2Manager.import_view env none p new_view_id).notifs = [] ∧
      (∀ v, (Folder2Manager.create_view_with_params env none params).result =
          .ok v →
        Folder2Manager.get_view
            (Folder2Manager.create_view_with_params env none params).slot v.id =
          .error folder_not_init_error) := by
  refine ⟨rfl, rfl, rfl, ?_, ?_, ?_, ?_, ?_⟩
  · exact (create_view_with_params_empty_slot env params).1
  · exact (create_view_with_params_empty_slot env params).2
  · exact (import_view_empty_slot env p new_view_id).1
  · exact (import_view_empty_slot env p new_view_id).2
  · intro v hv
    rw [(create_view_with_params_empty_slot env params).1]
    rfl

/-- Claim C2 witness: the amended theorem evaluated with a succeeding
handler on the empty slot — the reported view is not retrievable. -/
theorem C2_empty_slot_witness :
    Folder2Manager.get_view
        (Folder2Manager.create_view_with_params sampleEnvOk none sampleParams).slot
        (create_view sampleParams ViewLayout.document).id =
      .error folder_not_init_error :=
  (C2_empty_slot sampleEnvOk sampleParams sampleImportBoth "v" "w" "i"
      0).2.2.2.2.2.2.2 (create_view sampleParams ViewLayout.document) rfl

/-- Claim C3 counterexample: an `ImportParams` with BOTH raw data and a file
path supplied (two sources, not exactly one) does not fail with InvalidData:
both handler ingestions run and the view is created. -/
theorem C3_counterexample :
    (Folder2Manager.import_view sampleEnvOk (some sampleFolder1) sampleImportBoth
          "i").result =
        .ok (create_view ⟨"p", "N", "", ViewLayout.document, [], "i", [], false⟩
          ViewLayout.document) ∧
      (Folder2Manager.import_view sampleEnvOk (some sampleFolder1) sampleImportBoth
          "i").events =
        [Event.evImportBytes, Event.evImportPath, Event.evInsert "i"] := by
  exact ⟨rfl, rfl⟩

/-- Claim C3 as amended: `import` fails with InvalidData exactly when both
sources are absent, and then it fails before any content handler is invoked
(empty trace, slot untouched, nothing notified); when both sources are
present it is not an error: both ingestion handlers are invoked and, when
they succeed, the view is created. -/
theorem C3_import_requires_source (env : ManagerEnv) (slot : Option Folder)
    (p : ImportParams) (new_view_id : String) :
    (p.data = none → p.file_path = none →
      Folder2Manager.import_view env slot p new_view_id =
        ⟨slot, [], .error ⟨ErrorCode.invalidData, "data or file_path is required"⟩,
          []⟩) ∧
      (∀ d fp handler, p.data = some d → p.file_path = some fp →
        Folder2Manager.get_handler env p.view_layout = .ok handler →
        handler.from_bytes new_view_id p.name d = .ok () →
        handler.from_file_path new_view_id p.name fp = .ok () →
        (Folder2Manager.import_view env slot p new_view_id).result =
            .ok (create_view
              { parent_view_id := p.parent_view_id
                name := p.name
                desc := ""
                layout := p.view_layout
                initial_data := []
                view_id := new_view_id
                meta := []
                set_as_current := false } p.view_layout) ∧
          Event.evImportBytes ∈ (Folder2Manager.import_view env slot p new_view_id).events ∧
          Event.evImportPath ∈ (Folder2Manager.import_view env slot p new_view_id).events) := by
  constructor
  · intro hd hf
    unfold Folder2Manager.import_view
    simp [hd, hf]
  · intro d fp handler hd hf hh hb hfp
    refine ⟨?_, ?_, ?_⟩ <;>
      simp [Folder2Manager.import_view, hd, hf, hh, hb, hfp]

/-- Claim C3 witness: the amended theorem evaluated on concrete import
parameters with neither source and with both sources. -/
theorem C3_import_requires_source_witness :
    (Folder2Manager.import_view sampleEnvOk (some sampleFolder1)
          sampleImportNeither "i" =
        ⟨some sampleFolder1, [],
          .error ⟨ErrorCode.invalidData, "data or file_path is required"⟩, []⟩) ∧
      (Folder2Manager.import_view sampleEnvOk (some sampleFolder1) sampleImportBoth
          "i").result =
        .ok (create_view ⟨"p", "N", "", ViewLayout.document, [], "i", [], false⟩
          ViewLayout.document) ∧
      Event.evImportBytes ∈
        (Folder2Manager.import_view sampleEnvOk (some sampleFolder1) sampleImportBoth
          "i").events ∧
      Event.evImportPath ∈
        (Folder2Manager.import_view sampleEnvOk (some sampleFolder1) sampleImportBoth
          "i").events := by
  have h1 := (C3_import_requires_source sampleEnvOk (some sampleFolder1)
    sampleImportNeither "i").1 rfl rfl
  have h2 := (C3_import_requires_source sampleEnvOk (some sampleFolder1)
    sampleImportBoth "i").2 [1] "a.md" sampleHandlerOk rfl rfl rfl rfl rfl
  exact ⟨h1, h2.1, h2.2.1, h2.2.2⟩

/-- Case analysis of `create_view_with_params`: it either aborts with an
error before any tree mutation (slot and notifications untouched, no insert
event), or performs exactly one content-handler call followed by the
insertion of the view built from the parameters. -/
theorem create_view_with_params_cases (env : ManagerEnv) (slot : Option Folder)
    (params : CreateViewParams) :
    (∃ e ev, Folder2Manager.create_view_with_params env slot params =
        ⟨slot, [], .error e, ev⟩ ∧ ev.filter Event.isInsert = []) ∨
      (∃ c, (c = Event.evCreateBuiltIn ∨ c = Event.evCreateWithData) ∧
        Folder2Manager.create_view_with_params env slot params =
          ⟨slot.map (fun folder =>
              folder.insert_view (create_view params params.layout)),
            notify_parent_view_did_change
              (slot.map (fun folder =>
                folder.insert_view (create_view params params.layout)))
              [params.parent_view_id],
            .ok (create_view params params.layout),
            [c, Event.evInsert params.view_id]⟩) := by
  unfold Folder2Manager.create_view_with_params
  cases Folder2Manager.get_handler env params.layout with
  | error e => exact Or.inl ⟨e, [], rfl, rfl⟩
  | ok handler =>
    cases env.user_id with
    | error e => exact Or.inl ⟨e, [], rfl, rfl⟩
    | ok uid =>
      by_cases hd : params.initial_data.isEmpty
      · simp only [hd, if_true]
        cases handler.create_built_in_view uid params.view_id params.name
            params.layout with
        | error e => exact Or.inl ⟨e, [Event.evCreateBuiltIn], rfl, rfl⟩
        | ok u => exact Or.inr ⟨Event.evCreateBuiltIn, Or.inl rfl, rfl⟩
      · simp only [hd, if_false]
        cases handler.create_view_with_view_data uid params.view_id params.name
            params.initial_data params.layout params.meta with
        | error e => exact Or.inl ⟨e, [Event.evCreateWithData], rfl, rfl⟩
        | ok u => exact Or.inr ⟨Event.evCreateWithData, Or.inr rfl, rfl⟩


/-- Whenever `import` returns an error, the slot is unchanged, nothing was
notified and no view was inserted. -/
theorem import_view_error_no_mutation (env : ManagerEnv) (slot : Option Folder)
    (p : ImportParams) (new_view_id : String) :
    ∀ e, (Folder2Manager.import_view env slot p new_view_id).result = .error e →
      (Folder2Manager.import_view env slot p new_view_id).slot = slot ∧
        (Folder2Manager.import_view env slot p new_view_id).notifs = [] ∧
        ((Folder2Manager.import_view env slot p new_view_id).events.filter
          Event.isInsert) = [] := by
  intro e
  obtain ⟨ppv, pname, pdata, ppath, play⟩ := p
  cases pdata with
  | none =>
    cases ppath with
    | none => exact fun _ => ⟨rfl, rfl, rfl⟩
    | some fp =>
      unfold Folder2Manager.import_view
      dsimp only
      rw [if_neg (by simp)]
      cases Folder2Manager.get_handler env play with
      | error e2 => exact fun _ => ⟨rfl, rfl, rfl⟩
      | ok handler =>
        dsimp only
        cases handler.from_file_path new_view_id pname fp with
        | error e2 => exact fun _ => ⟨rfl, rfl, rfl⟩
        | ok u => exact fun h => Except.noConfusion h
  | some d =>
    unfold Folder2Manager.import_view
    dsimp only
    rw [if_neg (by simp)]
    cases Folder2Manager.get_handler env play with
    | error e2 => exact fun _ => ⟨rfl, rfl, rfl⟩
    | ok handler =>
      dsimp only
      cases handler.from_bytes new_view_id pname d with
      | error e2 => exact fun _ => ⟨rfl, rfl, rfl⟩
      | ok u =>
        dsimp only
        cases ppath with
        | none => exact fun h => Except.noConfusion h
        | some fp =>
          dsimp only
          cases handler.from_file_path new_view_id pname fp with
          | error e2 => exact fun _ => ⟨rfl, rfl, rfl⟩
          | ok u2 => exact fun h => Except.noConfusion h

/-- Claim C4: in `create_view_with_params` (and hence `import` and
`duplicate_view`) the content handler runs strictly before the view record
is inserted into the tree — on success the trace is exactly one content
call followed by the insert of the created view — and a handler failure
returns that error with the tree snapshot unchanged, no notification and no
insertion, so a tree entry without materialized content is never created. -/
theorem C4_handler_before_insert (env : ManagerEnv) (slot : Option Folder)
    (params : CreateViewParams) (p : ImportParams)
    (view_id new_view_id dup_view_id : String) :
    (∀ e, (Folder2Manager.create_view_with_params env slot params).result = .error e →
      (Folder2Manager.create_view_with_params env slot params).slot = slot ∧
        (Folder2Manager.create_view_with_params env slot params).notifs = [] ∧
        ((Folder2Manager.create_view_with_params env slot params).events.filter
          Event.isInsert) = []) ∧
      (∀ v, (Folder2Manager.create_view_with_params env slot params).result = .ok v →
        ∃ c, (Folder2Manager.create_view_with_params env slot params).events =
            [c, Event.evInsert v.id] ∧
          (c = Event.evCreateBuiltIn ∨ c = Event.evCreateWithData) ∧
          (Folder2Manager.create_view_with_params env slot params).slot =
            slot.map (fun folder => folder.insert_view v)) ∧
      (∀ e, (Folder2Manager.import_view env slot p new_view_id).result = .error e →
        (Folder2Manager.import_view env slot p new_view_id).slot = slot ∧
          (Folder2Manager.import_view env slot p new_view_id).notifs = [] ∧
          ((Folder2Manager.import_view env slot p new_view_id).events.filter
            Event.isInsert) = []) ∧
      (∀ e, (Folder2Manager.duplicate_view env slot view_id dup_view_id).result =
          .error e →
        (Folder2Manager.duplicate_view env slot view_id dup_view_id).slot = slot ∧
          (Folder2Manager.duplicate_view env slot view_id dup_view_id).notifs = [] ∧
          ((Folder2Manager.duplicate_view env slot view_id dup_view_id).events.filter
            Event.isInsert) = []) := by
  refine ⟨?_, ?_, import_view_error_no_mutation env slot p new_view_id, ?_⟩
  · intro e he
    rcases create_view_with_params_cases env slot params with
      ⟨e2, ev, hout, hev⟩ | ⟨c, hc, hout⟩
    · rw [hout]
      exact ⟨rfl, rfl, hev⟩
    · rw [hout] at he
      exact Except.noConfusion he
  · intro v hv
    rcases create_view_with_params_cases env slot params with
      ⟨e2, ev, hout, hev⟩ | ⟨c, hc, hout⟩
    · rw [hout] at hv
      exact Except.noConfusion hv
    · rw [hout] at hv ⊢
      cases hv
      exact ⟨c, rfl, hc, rfl⟩
  · intro e
    unfold Folder2Manager.duplicate_view
    cases slot with
    | none => exact fun _ => ⟨rfl, rfl, rfl⟩
    | some folder =>
      dsimp only [Folder2Manager.with_folder]
      cases folder.get_view view_id with
      | none => exact fun _ => ⟨rfl, rfl, rfl⟩
      | some view =>
        dsimp only
        cases Folder2Manager.get_handler env view.layout with
        | error e2 => exact fun _ => ⟨rfl, rfl, rfl⟩
        | ok handler =>
          dsimp only
          cases handler.duplicate_view view.id with
          | error e2 => exact fun _ => ⟨rfl, rfl, rfl⟩
          | ok view_data =>
            dsimp only
            rcases create_view_with_params_cases env (some folder)
                { parent_view_id := view.parent_view_id
                  name := view.name ++ " (copy)"
                  desc := view.desc
                  layout := view.layout
                  initial_data := view_data
                  view_id := dup_view_id
                  meta := []
                  set_as_current := true } with
              ⟨e2, ev, hout, hev⟩ | ⟨c, hc, hout⟩
            · rw [hout]
              intro _
              refine ⟨rfl, rfl, ?_⟩
              simp [Event.isInsert, hev]
            · rw [hout]
              intro hcontra
              exact Except.noConfusion hcontra

/-- Claim C4 witness: with a failing content handler, creating a view on a
loaded snapshot leaves the snapshot unchanged, notifies nobody and inserts
nothing. -/
theorem C4_handler_before_insert_witness :
    (Folder2Manager.create_view_with_params sampleEnvFail (some sampleFolder1)
          sampleParams).slot = some sampleFolder1 ∧
      (Folder2Manager.create_view_with_params sampleEnvFail (some sampleFolder1)
          sampleParams).notifs = [] ∧
      ((Folder2Manager.create_view_with_params sampleEnvFail (some sampleFolder1)
          sampleParams).events.filter Event.isInsert) = [] :=
  (C4_handler_before_insert sampleEnvFail (some sampleFolder1) sampleParams
      sampleImportBoth "v" "i" "d").1 ⟨ErrorCode.internal, "handler failed"⟩ rfl

/-- On a singleton parent list the notification path sends nothing, one
child-view notification on that parent topic, or one workspace-views
notification on that topic. -/
theorem notify_singleton_cases (slot : Option Folder) (p : String) :
    notify_parent_view_did_change slot [p] = [] ∨
      (∃ pb, notify_parent_view_did_change slot [p] =
        [Notification.did_update_child_views p pb]) ∨
      (∃ pbs, notify_parent_view_did_change slot [p] =
        [Notification.did_update_workspace_views p pbs]) := by
  cases slot with
  | none => exact Or.inl rfl
  | some folder =>
    unfold notify_parent_view_did_change
    dsimp only
    cases folder.get_current_workspace_id with
    | none => exact Or.inl rfl
    | some wid =>
      dsimp only
      unfold notify_parent_loop
      by_cases hp : p = wid
      · subst hp
        rw [if_pos rfl]
        exact Or.inr (Or.inr ⟨_, rfl⟩)
      · rw [if_neg hp]
        cases folder.get_view p with
        | none => exact Or.inl rfl
        | some pv => exact Or.inr (Or.inl ⟨_, rfl⟩)

/-- Claim C7 counterexample: in a snapshot without a current workspace id
the view `v` exists, `move_view` succeeds and reorders it, yet no
notification at all is dispatched — the claim that an existing view always
triggers a parent-scoped child-view notification is false. -/
theorem C7_counterexample :
    (Folder.get_view sampleFolderNoWs "v").isSome = true ∧
      (Folder2Manager.move_view (some sampleFolderNoWs) "v" 0 0).result = .ok () ∧
      (Folder2Manager.move_view (some sampleFolderNoWs) "v" 0 0).notifs = [] := by
  exact ⟨rfl, rfl, rfl⟩

/-- Claim C7 as amended: `move_view` always returns success; on a missing
view it is a pure no-op (tree unchanged, nothing notified, logging only);
on an existing view it reorders it among its siblings — preserving the
multiset of view ids — and runs the notification path scoped to the moved
view's parent, which dispatches at most one notification (the parent-topic
child-view notification, or the workspace-views notification when the
parent is the current workspace) and nothing at all when the snapshot has
no current workspace id or the parent has no view record. -/
theorem C7_move_view (folder : Folder) (view_id : String) (fromIdx toIdx : Nat) :
    (Folder2Manager.move_view (some folder) view_id fromIdx toIdx).result = .ok () ∧
      (folder.get_view view_id = none →
        Folder2Manager.move_view (some folder) view_id fromIdx toIdx =
          ⟨some folder, [], .ok (), []⟩) ∧
      (∀ v, folder.get_view view_id = some v →
        (Folder2Manager.move_view (some folder) view_id fromIdx toIdx).slot =
            some (folder.move_view view_id fromIdx toIdx).1 ∧
          ((folder.move_view view_id fromIdx toIdx).1.views.map View.id).Perm
            (folder.views.map View.id) ∧
          (Folder2Manager.move_view (some folder) view_id fromIdx toIdx).notifs =
            notify_parent_view_did_change
              (some (folder.move_view view_id fromIdx toIdx).1)
              [v.parent_view_id] ∧
          ((Folder2Manager.move_view (some folder) view_id fromIdx toIdx).notifs = [] ∨
            (∃ pb, (Folder2Manager.move_view (some folder) view_id fromIdx
                toIdx).notifs =
              [Notification.did_update_child_views v.parent_view_id pb]) ∨
            (∃ pbs, (Folder2Manager.move_view (some folder) view_id fromIdx
                toIdx).notifs =
              [Notification.did_update_workspace_views v.parent_view_id pbs]))) := by
  refine ⟨?_, ?_, ?_⟩
  · unfold Folder2Manager.move_view
    dsimp only
    unfold Folder.move_view
    cases folder.get_view view_id with
    | none => rfl
    | some v => rfl
  · intro hv
    unfold Folder2Manager.move_view
    dsimp only
    unfold Folder.move_view
    simp only [hv]
  · intro v hv
    have hm : folder.move_view view_id fromIdx toIdx =
        ({ folder with
            views :=
              (folder.views.filter
                  (fun w => !(w.parent_view_id == v.parent_view_id))) ++
                ((folder.get_views_belong_to v.parent_view_id).moveIdx fromIdx
                  toIdx) },
          some v) := by
      unfold Folder.move_view
      rw [hv]
    have hnotifs : (Folder2Manager.move_view (some folder) view_id fromIdx
        toIdx).notifs =
        notify_parent_view_did_change
          (some (folder.move_view view_id fromIdx toIdx).1)
          [v.parent_view_id] := by
      unfold Folder2Manager.move_view
      dsimp only
      simp only [hm]
    refine ⟨?_, (folder.move_view_perm view_id fromIdx toIdx).map View.id,
      hnotifs, ?_⟩
    · unfold Folder2Manager.move_view
      dsimp only
      simp only [hm]
    · rw [hnotifs]
      exact notify_singleton_cases _ v.parent_view_id

/-- Claim C7 witness: the amended theorem evaluated on `sampleFolder1` with
a missing id and with the existing view `p`. -/
theorem C7_move_view_witness :
    Folder2Manager.move_view (some sampleFolder1) "zz" 0 0 =
        ⟨some sampleFolder1, [], .ok (), []⟩ ∧
      (Folder2Manager.move_view (some sampleFolder1) "p" 0 0).slot =
        some (sampleFolder1.move_view "p" 0 0).1 := by
  exact ⟨(C7_move_view sampleFolder1 "zz" 0 0).2.1 rfl,
    ((C7_move_view sampleFolder1 "p" 0 0).2.2
      ⟨"p", "w", "P", "", ViewLayout.document, ["v"]⟩ rfl).1⟩

/-- A missing non-workspace parent aborts the notification walk: everything
after it in the parent list is skipped. -/
theorem notify_parent_loop_skip (folder : Folder) (wid : String)
    (trash_ids : List String) (p : String) (hp : p ≠ wid)
    (hview : folder.get_view p = none) :
    ∀ l1 l2, notify_parent_loop folder wid trash_ids (l1 ++ p :: l2) =
      notify_parent_loop folder wid trash_ids l1 := by
  intro l1
  induction l1 with
  | nil =>
    intro l2
    simp only [List.nil_append]
    unfold notify_parent_loop
    simp only [if_neg hp, hview]
  | cons q l1 ih =>
    intro l2
    simp only [List.cons_append]
    unfold notify_parent_loop
    by_cases hq : q = wid
    · simp only [if_pos hq, ih l2]
    · simp only [if_neg hq]
      cases folder.get_view q with
      | none => rfl
      | some pv => simp only [ih l2]

/-- Claim C9: in `notify_parent_view_did_change`, a non-workspace parent id
with no view record makes the function return early, silently skipping the
child-view notifications of every later parent id in the list; and nothing
at all is sent when the slot is empty or the snapshot has no current
workspace id. -/
theorem C9_notify_early_return (folder : Folder) (ps l1 l2 : List String)
    (p : String) :
    notify_parent_view_did_change none ps = [] ∧
      (folder.current_workspace = none →
        notify_parent_view_did_change (some folder) ps = []) ∧
      (∀ wid, folder.current_workspace = some wid → p ≠ wid →
        folder.get_view p = none →
        notify_parent_view_did_change (some folder) (l1 ++ p :: l2) =
          notify_parent_view_did_change (some folder) l1) := by
  refine ⟨rfl, ?_, ?_⟩
  · intro h
    unfold notify_parent_view_did_change
    dsimp only
    simp only [Folder.get_current_workspace_id, h]
  · intro wid hw hp hview
    unfold notify_parent_view_did_change
    dsimp only
    simp only [Folder.get_current_workspace_id, hw]
    exact notify_parent_loop_skip folder wid _ p hp hview l1 l2

/-- Claim C9 witness: the theorem evaluated on `sampleFolder1` (parent list
with the missing id `x` followed by `q`) and on the snapshot without a
current workspace. -/
theorem C9_notify_early_return_witness :
    notify_parent_view_did_change (some sampleFolder1) ["w", "x", "q"] =
        notify_parent_view_did_change (some sampleFolder1) ["w"] ∧
      notify_parent_view_did_change (some sampleFolderNoWs) ["p"] = [] := by
  exact ⟨(C9_notify_early_return sampleFolder1 [] ["w"] ["q"] "x").2.2 "w" rfl
      (by decide) rfl,
    (C9_notify_early_return sampleFolderNoWs ["p"] [] [] "x").2.1 rfl⟩

/-- The parent notification walk never emits a trash-list notification. -/
theorem notify_parent_loop_no_trash (folder : Folder) (wid : String)
    (trash_ids : List String) :
    ∀ ps, (notify_parent_loop folder wid trash_ids ps).filter
      Notification.isTrash = [] := by
  intro ps
  induction ps with
  | nil => rfl
  | cons q ps ih =>
    unfold notify_parent_loop
    by_cases hq : q = wid
    · simp only [if_pos hq, List.filter_cons]
      simp [Notification.isTrash, notify_did_update_workspace, ih]
    · simp only [if_neg hq]
      cases folder.get_view q with
      | none => rfl
      | some pv => simp [Notification.isTrash, List.filter_cons, ih]

/-- The parent notification walk emits at most as many child-view
notifications on topic `p` as there are occurrences of `p` in the parent
list. -/
theorem notify_parent_loop_child_count (folder : Folder) (wid : String)
    (trash_ids : List String) (p : String) :
    ∀ ps, ((notify_parent_loop folder wid trash_ids ps).countP
      (Notification.isChildViewFor p)) ≤ ps.count p := by
  intro ps
  induction ps with
  | nil => simp [notify_parent_loop]
  | cons q ps ih =>
    unfold notify_parent_loop
    by_cases hq : q = wid
    · rw [if_pos hq]
      rw [List.countP_cons, List.count_cons]
      have hws : Notification.isChildViewFor p
          (notify_did_update_workspace wid folder) = false := rfl
      rw [hws]
      simp only [Bool.false_eq_true, if_false, Nat.add_zero]
      exact ih.trans (Nat.le_add_right _ _)
    · rw [if_neg hq]
      cases folder.get_view q with
      | none => simp
      | some pv =>
        dsimp only
        rw [List.countP_cons, List.count_cons]
        have hch : Notification.isChildViewFor p
            (Notification.did_update_child_views q
              (view_pb_with_child_views pv
                ((folder.get_views_belong_to q).filter
                  (fun v => !decide (v.id ∈ trash_ids))))) = (q == p) := rfl
        rw [hch]
        exact Nat.add_le_add ih (Nat.le_refl _)

/-- The parent notification path never emits a trash-list notification. -/
theorem notify_parent_no_trash (slot : Option Folder) (ps : List String) :
    (notify_parent_view_did_change slot ps).filter Notification.isTrash = [] := by
  cases slot with
  | none => rfl
  | some folder =>
    unfold notify_parent_view_did_change
    dsimp only
    cases folder.get_current_workspace_id with
    | none => rfl
    | some wid =>
      dsimp only
      exact notify_parent_loop_no_trash folder wid _ ps

/-- The parent notification path emits at most `ps.count p` child-view
notifications on topic `p`. -/
theorem notify_parent_child_count (slot : Option Folder) (ps : List String)
    (p : String) :
    ((notify_parent_view_did_change slot ps).countP
      (Notification.isChildViewFor p)) ≤ ps.count p := by
  cases slot with
  | none => exact Nat.zero_le _
  | some folder =>
    unfold notify_parent_view_did_change
    dsimp only
    cases folder.get_current_workspace_id with
    | none => exact Nat.zero_le _
    | some wid =>
      dsimp only
      exact notify_parent_loop_child_count folder wid _ p ps

/-- Claim C8: handling one trash-change event on a loaded snapshot sends
exactly one full trash-list notification, and at most one child-view
notification per distinct parent id of the affected views (deduplicated
even when several trashed siblings share a parent). -/
theorem C8_trash_listener_dedup (folder : Folder) (ids : List String)
    (p : String) :
    ((process_trash_change (some folder) ids).filter Notification.isTrash) =
        [Notification.did_update_trash folder.get_all_trash] ∧
      ((process_trash_change (some folder) ids).countP
        (Notification.isChildViewFor p)) ≤ 1 := by
  constructor
  · unfold process_trash_change
    dsimp only
    rw [List.filter_cons]
    have h1 : Notification.isTrash
        (Notification.did_update_trash folder.get_all_trash) = true := rfl
    rw [h1]
    simp only [if_true]
    rw [notify_parent_no_trash]
  · unfold process_trash_change
    dsimp only
    rw [List.countP_cons]
    have h1 : Notification.isChildViewFor p
        (Notification.did_update_trash folder.get_all_trash) = false := rfl
    rw [h1]
    simp only [Bool.false_eq_true, if_false, Nat.add_zero]
    exact (notify_parent_child_count (some folder)
        (((folder.get_views ids).map View.parent_view_id).dedup) p).trans
      (List.nodup_iff_count_le_one.mp
        (List.nodup_dedup ((folder.get_views ids).map View.parent_view_id)) p)
